import Mathlib

/-!
Verification of the eventapp backends (contact-api and events-api) against
their natural-language specification.

The definitions below are a shallow embedding of the Python source:

* `get_db`, `recreate_all_tables` — contact-api `app/database/db.py` and
  `app/database/daos.py` (tenant registry, lazy provisioning, administrative
  recreate).
* `find_by_email_or_phone`, `create_contact` — contact-api
  `app/database/daos.py` and `app/api/services.py`.
* `AgendaQuery`, `AgendaItemQuery`, `AgendaLogic` — events-api
  `app/database/daos.py` and `app/api/services.py`.

Database side effects are recorded as explicit `DbAction` traces; SQLAlchemy
queries over tables become pure functions over lists of rows; raising an
`HTTPException` with status `s` is modelled as returning `s` as the status
component of the result.
-/

/-- One observable database side effect performed by the contact-api registry
or by the administrative cleaner. `createDatabase` carries whether the
`CREATE DATABASE` statement succeeded (a failure is caught and logged by the
source, so it is data, not control flow). -/
inductive DbAction where
  | dbExistsCheck (dbName : String)
  | createDatabase (dbName : String) (ok : Bool)
  | createSchema (dbName : String)
  | createTables (dbName : String)
  | dropTables (dbName : String)
  | closeSession (dbName : String)
  | evictFactory (dbName : String)
  deriving DecidableEq, Repr

/-- The database name an action targets. -/
def DbAction.dbName : DbAction → String
  | .dbExistsCheck n => n
  | .createDatabase n _ => n
  | .createSchema n => n
  | .createTables n => n
  | .dropTables n => n
  | .closeSession n => n
  | .evictFactory n => n

/-- Does the action belong to the provisioning path (existence check,
database creation, schema creation, table creation) for database `name`? -/
def DbAction.isProvisioningFor (name : String) : DbAction → Bool
  | .dbExistsCheck n => n == name
  | .createDatabase n _ => n == name
  | .createSchema n => n == name
  | .createTables n => n == name
  | _ => false

/-- The module-level mutable state of contact-api `app/database/db.py`:
`tenant_sessions_postgres` maps a tenant database name to its cached
sessionmaker (factories are numbered so that distinct constructions are
distinguishable), and `initialized_tenants` is the set of tenant database
names whose schema and tables have been set up. `nextFactoryId` numbers the
sessionmaker constructions performed so far. -/
structure RegistryState where
  tenant_sessions_postgres : List (String × Nat)
  initialized_tenants : List String
  nextFactoryId : Nat
  deriving DecidableEq, Repr

/-- Lookup in the `tenant_sessions_postgres` dict. -/
def dictLookup (name : String) : List (String × Nat) → Option Nat
  | [] => none
  | (k, v) :: rest => if name = k then some v else dictLookup name rest

/-- `del tenant_sessions_postgres[name]`: remove every binding of `name`. -/
def dictRemove (name : String) (l : List (String × Nat)) : List (String × Nat) :=
  l.filter (fun kv => kv.1 != name)

/-- Environment for one `get_db` call: what the backing store answers.
`dbExists` is the result of the `pg_database` existence query, `createDbOk`
is whether `CREATE DATABASE` succeeds, and `connectOk` is whether the later
connection used by the schema/table-creation block succeeds. -/
structure DbEnv where
  dbExists : Bool
  createDbOk : Bool
  connectOk : Bool
  deriving DecidableEq, Repr

/-- Outcome of `get_db`: either a session built from the factory with the
given id is yielded, or an exception from the schema-initialization
connection propagates to the caller. -/
inductive GetDbOutcome where
  | session (factoryId : Nat)
  | raised
  deriving DecidableEq, Repr

/-- Result of one `get_db` call: the updated module state, the trace of
database actions performed, and the outcome. -/
structure GetDbResult where
  state : RegistryState
  events : List DbAction
  outcome : GetDbOutcome
  deriving DecidableEq, Repr

/-- Shallow embedding of contact-api `get_db` (app/database/db.py, lines
29-84) up to the point where the session is yielded.  The source:
computes `tenant_db_name = tenant_id + "db"`; if that key is not in
`tenant_sessions_postgres` it checks database existence on the control
connection, attempts `CREATE DATABASE` when absent (catching and logging any
failure), builds and caches a sessionmaker, and — only when the key is not
in `initialized_tenants` — connects again to create the schema and tables
and adds the key to `initialized_tenants`.  Finally it returns a session
from the cached sessionmaker. A failure of the schema-initialization
connection propagates (`connectOk = false`), after the factory was already
cached. -/
def get_db (env : DbEnv) (tenant_id : String) (s : RegistryState) : GetDbResult :=
  let tenant_db_name := tenant_id ++ "db"
  match dictLookup tenant_db_name s.tenant_sessions_postgres with
  | some fid => ⟨s, [], .session fid⟩
  | none =>
    let checkEvents := [DbAction.dbExistsCheck tenant_db_name]
    let createEvents :=
      if env.dbExists then []
      else [DbAction.createDatabase tenant_db_name env.createDbOk]
    let fid := s.nextFactoryId
    let s1 : RegistryState :=
      { s with
        tenant_sessions_postgres := (tenant_db_name, fid) :: s.tenant_sessions_postgres,
        nextFactoryId := fid + 1 }
    if tenant_db_name ∈ s1.initialized_tenants then
      ⟨s1, checkEvents ++ createEvents, .session fid⟩
    else if env.connectOk then
      ⟨{ s1 with initialized_tenants := s1.initialized_tenants.insert tenant_db_name },
        checkEvents ++ createEvents ++
          [DbAction.createSchema tenant_db_name, DbAction.createTables tenant_db_name],
        .session fid⟩
    else
      ⟨s1, checkEvents ++ createEvents, .raised⟩

/-- Run a sequence of `get_db` calls, threading the module state and
concatenating the action traces. -/
def runCalls : List (DbEnv × String) → RegistryState → RegistryState × List DbAction
  | [], s => (s, [])
  | (env, t) :: rest, s =>
    let r := get_db env t s
    let (s2, evs) := runCalls rest r.state
    (s2, r.events ++ evs)

/-- Outcome of the contact-api `DatabaseCleanerQuery.recreate_all_tables`. -/
inductive RecreateOutcome where
  | ok (detail : String)
  | valueError (msg : String)
  | wrappedError (msg : String)
  deriving DecidableEq, Repr

/-- Result of the administrative recreate: updated module state, action
trace, outcome. -/
structure RecreateResult where
  state : RegistryState
  events : List DbAction
  outcome : RecreateOutcome
  deriving DecidableEq, Repr

/-- Shallow embedding of contact-api `DatabaseCleanerQuery.recreate_all_tables`
(app/database/daos.py, lines 117-164).  With `recreate` false it raises
`ValueError` before touching anything.  Otherwise it closes and deletes the
cached sessionmaker entry if present, builds a fresh (local, uncached)
engine, drops and recreates all tables, and adds the tenant database name to
`initialized_tenants`.  `storageOk` models whether the storage layer
operations succeed; on failure the error is wrapped in a plain `Exception`
whose message names the tenant. -/
def recreate_all_tables (storageOk : Bool) (tenant_id : String) (recreate : Bool)
    (s : RegistryState) : RecreateResult :=
  if !recreate then
    ⟨s, [], .valueError "Tables are not recreated. Set recreate=True to proceed"⟩
  else
    let tenant_db_name := tenant_id ++ "db"
    let cached := dictLookup tenant_db_name s.tenant_sessions_postgres
    let s1 : RegistryState :=
      match cached with
      | some _ =>
        { s with tenant_sessions_postgres := dictRemove tenant_db_name s.tenant_sessions_postgres }
      | none => s
    let evs1 : List DbAction :=
      match cached with
      | some _ => [DbAction.closeSession tenant_db_name, DbAction.evictFactory tenant_db_name]
      | none => []
    if storageOk then
      ⟨{ s1 with initialized_tenants := s1.initialized_tenants.insert tenant_db_name },
        evs1 ++ [DbAction.dropTables tenant_db_name, DbAction.createTables tenant_db_name],
        .ok ("Tables recreated for tenant: " ++ tenant_id)⟩
    else
      ⟨s1, evs1, .wrappedError ("Database error for tenant " ++ tenant_id)⟩

/-- Shallow embedding of the contact-api service wrapper
`DatabaseCleaner.recreate_all_tables` (app/api/services.py, lines 156-178):
`ValueError` becomes HTTP 400 with the error text, any other exception
becomes HTTP 500 with a generic message, success becomes HTTP 200. -/
def service_recreate_all_tables (storageOk : Bool) (tenant_id : String) (recreate : Bool)
    (s : RegistryState) : RegistryState × List DbAction × Nat × String :=
  let r := recreate_all_tables storageOk tenant_id recreate s
  match r.outcome with
  | .ok d => (r.state, r.events, 200, d)
  | .valueError m => (r.state, r.events, 400, m)
  | .wrappedError _ => (r.state, r.events, 500, "Internal server error while recreating tables")

/-- A row of the contact-api `contacts` table (app/database/models.py),
restricted to the columns the services read or write. -/
structure DBContact where
  contact_id : Nat
  first_name : String
  last_name : String
  full_name : String
  contact_type : String
  created_by : String
  email : Option String
  phone : Option String
  deriving DecidableEq, Repr

/-- The validated payload of contact-api `ContactCreate` (app/api/models.py).
Pydantic guarantees that at least one of `email`/`phone` is present and that
present values are non-empty, so Python truthiness of a field coincides with
`Option.isSome` here. -/
structure ContactCreateModel where
  first_name : String
  last_name : String
  contact_type : String
  created_by : String
  email : Option String
  phone : Option String
  deriving DecidableEq, Repr

/-- Shallow embedding of contact-api `ContactQuery.find_by_email_or_phone`
(app/database/daos.py, lines 16-22).  The source builds one query and adds
an email filter when `email` is truthy and a phone filter when `phone` is
truthy, then takes `.first()`: with both fields present the two filters are
conjoined. -/
def find_by_email_or_phone (db : List DBContact) (email phone : Option String) :
    Option DBContact :=
  let query := db
  let query :=
    match email with
    | some e => query.filter (fun (c : DBContact) => c.email == some e)
    | none => query
  let query :=
    match phone with
    | some p => query.filter (fun (c : DBContact) => c.phone == some p)
    | none => query
  query.head?

/-- Shallow embedding of contact-api `ContactQuery.create`
(app/database/daos.py, lines 28-50): build the row (with a fresh id and
`full_name` from the two name fields) and insert it. -/
def ContactQuery.create (db : List DBContact) (newId : Nat) (c : ContactCreateModel) :
    List DBContact :=
  db ++ [⟨newId, c.first_name, c.last_name, c.first_name ++ " " ++ c.last_name,
          c.contact_type, c.created_by, c.email, c.phone⟩]

/-- Shallow embedding of contact-api `ContactLogic.create_contact`
(app/api/services.py, lines 60-80): look for an existing contact via
`find_by_email_or_phone`; if one is found answer 409 and insert nothing,
otherwise insert and answer 201.  Returns the HTTP status and the resulting
table. -/
def create_contact (db : List DBContact) (newId : Nat) (c : ContactCreateModel) :
    Nat × List DBContact :=
  match find_by_email_or_phone db c.email c.phone with
  | some _ => (409, db)
  | none => (201, ContactQuery.create db newId c)

/-- A row of the events-api `users` table (app/database/models.py),
restricted to the columns the agenda claims need. -/
structure DBUser where
  id : String
  email : String
  deriving DecidableEq, Repr

/-- A row of the events-api `events` table. -/
structure DBEvent where
  id : String
  owner_id : String
  name : String
  status : String
  deriving DecidableEq, Repr

/-- A row of the events-api `agendas` table (one agenda per event). -/
structure DBAgenda where
  id : String
  event_id : String
  title : String
  description : Option String
  deriving DecidableEq, Repr

/-- A row of the events-api `agenda_items` table.  Times of day are minutes
since midnight (`datetime.time` in the source); `item_type` embeds the
`type` column (a Lean keyword). -/
structure DBAgendaItem where
  id : String
  agenda_id : String
  title : String
  description : Option String
  start_time : Nat
  end_time : Option Nat
  location : Option String
  item_type : String
  display_order : Nat
  is_important : Bool
  deriving DecidableEq, Repr

/-- The events-api tenant database: the four tables the agenda services
touch. -/
structure EventsDB where
  users : List DBUser
  events : List DBEvent
  agendas : List DBAgenda
  items : List DBAgendaItem
  deriving DecidableEq, Repr

/-- Shallow embedding of events-api `AgendaQuery.validate_ownership`
(app/database/daos.py, lines 252-257): the event row with the given id and
owner exists. -/
def AgendaQuery.validate_ownership (db : EventsDB) (event_id user_id : String) : Bool :=
  (db.events.find? (fun (e : DBEvent) => e.id == event_id && e.owner_id == user_id)).isSome

/-- The agenda-joined-with-owned-event query used throughout
`AgendaQuery`/`AgendaItemQuery`: first agenda whose `event_id` matches and
whose event is owned by `user_id`. -/
def agendaJoinOwned (db : EventsDB) (event_id user_id : String) : Option DBAgenda :=
  db.agendas.find? (fun (a : DBAgenda) =>
    a.event_id == event_id &&
      db.events.any (fun (e : DBEvent) => e.id == a.event_id && e.owner_id == user_id))

/-- Shallow embedding of events-api `AgendaQuery.get_one`
(app/database/daos.py, lines 168-175). -/
def AgendaQuery.get_one (db : EventsDB) (event_id user_id : String) : Option DBAgenda :=
  agendaJoinOwned db event_id user_id

/-- Shallow embedding of events-api `AgendaQuery.get_agenda_with_items`
(app/database/daos.py, lines 177-189): same join, items come through the
relationship. -/
def AgendaQuery.get_agenda_with_items (db : EventsDB) (event_id user_id : String) :
    Option DBAgenda :=
  agendaJoinOwned db event_id user_id

/-- Shallow embedding of events-api `AgendaQuery.create`
(app/database/daos.py, lines 191-215): re-check that the owned event
exists, then insert a fresh agenda row. -/
def AgendaQuery.create (db : EventsDB) (freshId event_id user_id : String)
    (title : String) (description : Option String) : Option (DBAgenda × EventsDB) :=
  match db.events.find? (fun (e : DBEvent) => e.id == event_id && e.owner_id == user_id) with
  | none => none
  | some _ =>
    let agenda : DBAgenda := ⟨freshId, event_id, title, description⟩
    some (agenda, { db with agendas := db.agendas ++ [agenda] })

/-- Shallow embedding of events-api `AgendaQuery.update`
(app/database/daos.py, lines 217-235): fields that are `None` in the patch
are left untouched. -/
def AgendaQuery.update (db : EventsDB) (event_id user_id : String)
    (title description : Option String) : Option (DBAgenda × EventsDB) :=
  match AgendaQuery.get_one db event_id user_id with
  | none => none
  | some a =>
    let a2 : DBAgenda :=
      { a with
        title := title.getD a.title,
        description := match description with | some d => some d | none => a.description }
    some (a2, { db with agendas := db.agendas.map (fun (x : DBAgenda) => if x.id == a.id then a2 else x) })

/-- Shallow embedding of events-api `AgendaQuery.delete`
(app/database/daos.py, lines 237-250): remove the agenda; its items go with
it through the store-enforced cascade. -/
def AgendaQuery.delete (db : EventsDB) (event_id user_id : String) : Option EventsDB :=
  match AgendaQuery.get_one db event_id user_id with
  | none => none
  | some a =>
    some { db with
           agendas := db.agendas.filter (fun (x : DBAgenda) => x.id != a.id),
           items := db.items.filter (fun (it : DBAgendaItem) => it.agenda_id != a.id) }

/-- Shallow embedding of events-api `AgendaItemQuery.get_one`
(app/database/daos.py, lines 261-269): item joined through its agenda to an
event owned by `user_id`. -/
def AgendaItemQuery.get_one (db : EventsDB) (item_id event_id user_id : String) :
    Option DBAgendaItem :=
  db.items.find? (fun (it : DBAgendaItem) =>
    it.id == item_id &&
      db.agendas.any (fun (a : DBAgenda) =>
        a.id == it.agenda_id && a.event_id == event_id &&
          db.events.any (fun (e : DBEvent) => e.id == a.event_id && e.owner_id == user_id)))

/-- The `item_dict` assembled by `AgendaLogic.create_agenda_item` from the
validated `AgendaItemCreate` payload (same fields, `display_order` still
optional). -/
structure AgendaItemData where
  title : String
  description : Option String
  start_time : Nat
  end_time : Option Nat
  location : Option String
  item_type : String
  display_order : Option Nat
  is_important : Bool
  deriving DecidableEq, Repr

/-- Shallow embedding of events-api `AgendaItemQuery.create`
(app/database/daos.py, lines 280-313): find the owned agenda; auto-assign
`display_order` as `max(existing) + 1` (the query `scalar() or 0` gives 0 on
an empty agenda) when the payload omits it; insert the row. -/
def AgendaItemQuery.create (db : EventsDB) (freshId event_id user_id : String)
    (item_data : AgendaItemData) : Option (DBAgendaItem × EventsDB) :=
  match agendaJoinOwned db event_id user_id with
  | none => none
  | some agenda =>
    let display_order :=
      match item_data.display_order with
      | some d => d
      | none =>
        ((db.items.filter (fun (it : DBAgendaItem) => it.agenda_id == agenda.id)).foldl
          (fun m it => max m it.display_order) 0) + 1
    let item : DBAgendaItem :=
      ⟨freshId, agenda.id, item_data.title, item_data.description, item_data.start_time,
        item_data.end_time, item_data.location, item_data.item_type, display_order,
        item_data.is_important⟩
    some (item, { db with items := db.items ++ [item] })

/-- The all-optional `AgendaItemUpdate` payload (app/api/models.py, lines
121-129). -/
structure AgendaItemPatch where
  title : Option String
  description : Option String
  start_time : Option Nat
  end_time : Option Nat
  location : Option String
  item_type : Option String
  display_order : Option Nat
  is_important : Option Bool
  deriving DecidableEq, Repr

/-- The field-by-field assignment loop of events-api
`AgendaItemQuery.update` (app/database/daos.py, lines 322-324): every
non-`None` patch value replaces the stored one; `None` values were already
dropped when the service built `item_dict`. -/
def applyPatch (it : DBAgendaItem) (p : AgendaItemPatch) : DBAgendaItem :=
  { it with
    title := p.title.getD it.title,
    description := match p.description with | some d => some d | none => it.description,
    start_time := p.start_time.getD it.start_time,
    end_time := match p.end_time with | some e => some e | none => it.end_time,
    location := match p.location with | some l => some l | none => it.location,
    item_type := p.item_type.getD it.item_type,
    display_order := p.display_order.getD it.display_order,
    is_important := p.is_important.getD it.is_important }

/-- Shallow embedding of events-api `AgendaItemQuery.update`
(app/database/daos.py, lines 315-332). -/
def AgendaItemQuery.update (db : EventsDB) (item_id event_id user_id : String)
    (item_data : AgendaItemPatch) : Option (DBAgendaItem × EventsDB) :=
  match AgendaItemQuery.get_one db item_id event_id user_id with
  | none => none
  | some it =>
    let it2 := applyPatch it item_data
    some (it2, { db with items := db.items.map (fun (x : DBAgendaItem) => if x.id == it.id then it2 else x) })

/-- Shallow embedding of events-api `AgendaItemQuery.delete`
(app/database/daos.py, lines 334-347). -/
def AgendaItemQuery.delete (db : EventsDB) (item_id event_id user_id : String) :
    Option EventsDB :=
  match AgendaItemQuery.get_one db item_id event_id user_id with
  | none => none
  | some it =>
    some { db with items := db.items.filter (fun (x : DBAgendaItem) => x.id != it.id) }

/-- Shallow embedding of events-api `AgendaItemQuery.bulk_reorder`
(app/database/daos.py, lines 349-392).  `item_orders` is the list of
`(item_id, display_order)` pairs of the request.  The source finds the owned
agenda, loads the items whose id is in the request and whose `agenda_id` is
the agenda, rejects the whole batch when that count differs from the number
of requested ids, and otherwise applies every update. -/
def AgendaItemQuery.bulk_reorder (db : EventsDB) (event_id user_id : String)
    (item_orders : List (String × Nat)) : Option EventsDB :=
  match agendaJoinOwned db event_id user_id with
  | none => none
  | some agenda =>
    let item_ids := item_orders.map (fun io => io.1)
    let existing_items := db.items.filter (fun (it : DBAgendaItem) =>
      item_ids.contains it.id && it.agenda_id == agenda.id)
    if existing_items.length != item_ids.length then none
    else
      some { db with
             items := item_orders.foldl
               (fun items io => items.map (fun (it : DBAgendaItem) =>
                 if it.id == io.1 then { it with display_order := io.2 } else it))
               db.items }

/-- Shallow embedding of events-api `AgendaLogic.get_agenda`
(app/api/services.py, lines 185-209): 403 when the caller does not own the
event, 404 when no agenda exists, else 200.  Returns the HTTP status and
the (unchanged) database. -/
def AgendaLogic.get_agenda (db : EventsDB) (event_id user_id : String) : Nat × EventsDB :=
  if !AgendaQuery.validate_ownership db event_id user_id then (403, db)
  else
    match AgendaQuery.get_agenda_with_items db event_id user_id with
    | none => (404, db)
    | some _ => (200, db)

/-- Shallow embedding of events-api `AgendaLogic.create_agenda`
(app/api/services.py, lines 211-250): a failed ownership check answers 404
(not 403); an existing agenda answers 409; a falsy title is replaced by the
default; creation answers 201. -/
def AgendaLogic.create_agenda (db : EventsDB) (freshId event_id user_id : String)
    (title : Option String) (description : Option String) : Nat × EventsDB :=
  if !AgendaQuery.validate_ownership db event_id user_id then (404, db)
  else
    match AgendaQuery.get_one db event_id user_id with
    | some _ => (409, db)
    | none =>
      let t :=
        match title with
        | some t => if t == "" then "Program događaja" else t
        | none => "Program događaja"
      match AgendaQuery.create db freshId event_id user_id t description with
      | none => (404, db)
      | some (_, db2) => (201, db2)

/-- Shallow embedding of events-api `AgendaLogic.update_agenda`
(app/api/services.py, lines 252-283). -/
def AgendaLogic.update_agenda (db : EventsDB) (event_id user_id : String)
    (title description : Option String) : Nat × EventsDB :=
  if !AgendaQuery.validate_ownership db event_id user_id then (403, db)
  else
    match AgendaQuery.update db event_id user_id title description with
    | none => (404, db)
    | some (_, db2) => (200, db2)

/-- Shallow embedding of events-api `AgendaLogic.delete_agenda`
(app/api/services.py, lines 285-309). -/
def AgendaLogic.delete_agenda (db : EventsDB) (event_id user_id : String) : Nat × EventsDB :=
  if !AgendaQuery.validate_ownership db event_id user_id then (403, db)
  else
    match AgendaQuery.delete db event_id user_id with
    | none => (404, db)
    | some db2 => (204, db2)

/-- Shallow embedding of events-api `AgendaLogic.create_agenda_item`
(app/api/services.py, lines 311-353): 403 on failed ownership; 422 when
`end_time` is given and not strictly after `start_time`; 404 when the DAO
finds no agenda; else 201. -/
def AgendaLogic.create_agenda_item (db : EventsDB) (freshId event_id user_id : String)
    (item_data : AgendaItemData) : Nat × EventsDB :=
  if !AgendaQuery.validate_ownership db event_id user_id then (403, db)
  else if (match item_data.end_time with
           | some e => decide (e ≤ item_data.start_time)
           | none => false) then (422, db)
  else
    match AgendaItemQuery.create db freshId event_id user_id item_data with
    | none => (404, db)
    | some (_, db2) => (201, db2)

/-- Shallow embedding of events-api `AgendaLogic.update_agenda_item`
(app/api/services.py, lines 355-412): the 422 time check fires only when
the patch carries both `start_time` and `end_time`. -/
def AgendaLogic.update_agenda_item (db : EventsDB) (event_id item_id user_id : String)
    (item_data : AgendaItemPatch) : Nat × EventsDB :=
  if !AgendaQuery.validate_ownership db event_id user_id then (403, db)
  else if (match item_data.start_time, item_data.end_time with
           | some s, some e => decide (e ≤ s)
           | _, _ => false) then (422, db)
  else
    match AgendaItemQuery.update db item_id event_id user_id item_data with
    | none => (404, db)
    | some (_, db2) => (200, db2)

/-- Shallow embedding of events-api `AgendaLogic.delete_agenda_item`
(app/api/services.py, lines 414-439). -/
def AgendaLogic.delete_agenda_item (db : EventsDB) (event_id item_id user_id : String) :
    Nat × EventsDB :=
  if !AgendaQuery.validate_ownership db event_id user_id then (403, db)
  else
    match AgendaItemQuery.delete db item_id event_id user_id with
    | none => (404, db)
    | some db2 => (204, db2)

/-- Shallow embedding of events-api `AgendaLogic.reorder_agenda_items`
(app/api/services.py, lines 441-478): 403 on failed ownership, 400 when the
DAO rejects the batch, else 200. -/
def AgendaLogic.reorder_agenda_items (db : EventsDB) (event_id user_id : String)
    (item_orders : List (String × Nat)) : Nat × EventsDB :=
  if !AgendaQuery.validate_ownership db event_id user_id then (403, db)
  else
    match AgendaItemQuery.bulk_reorder db event_id user_id item_orders with
    | none => (400, db)
    | some db2 => (200, db2)

theorem dictLookup_cons_ne (name k : String) (v : Nat) (l : List (String × Nat))
    (h : name ≠ k) : dictLookup name ((k, v) :: l) = dictLookup name l := by
  simp [dictLookup, h]

theorem dictLookup_dictRemove_self (name : String) (l : List (String × Nat)) :
    dictLookup name (dictRemove name l) = none := by
  induction l with
  | nil => rfl
  | cons kv rest ih =>
    obtain ⟨k, v⟩ := kv
    by_cases h : k = name
    · simpa [dictRemove, List.filter_cons, h] using ih
    · have hne : name ≠ k := fun he => h he.symm
      simpa [dictRemove, List.filter_cons, h, dictLookup, hne] using ih

theorem get_db_fast (env : DbEnv) (t : String) (s : RegistryState) (fid : Nat)
    (h : dictLookup (t ++ "db") s.tenant_sessions_postgres = some fid) :
    get_db env t s = ⟨s, [], .session fid⟩ := by
  simp [get_db, h]

theorem get_db_preserves_cached (env : DbEnv) (t : String) (s : RegistryState)
    (name : String) (fid : Nat)
    (h : dictLookup name s.tenant_sessions_postgres = some fid) :
    dictLookup name (get_db env t s).state.tenant_sessions_postgres = some fid := by
  cases hm : dictLookup (t ++ "db") s.tenant_sessions_postgres with
  | some f => simp [get_db, hm, h]
  | none =>
    have hne : name ≠ t ++ "db" := by
      intro he
      rw [he, hm] at h
      cases h
    simp only [get_db, hm]
    split
    · simpa [dictLookup, hne] using h
    · split
      · simpa [dictLookup, hne] using h
      · simpa [dictLookup, hne] using h

theorem get_db_events_name (env : DbEnv) (t : String) (s : RegistryState) :
    ∀ a ∈ (get_db env t s).events, DbAction.dbName a = t ++ "db" := by
  cases hm : dictLookup (t ++ "db") s.tenant_sessions_postgres with
  | some f => simp [get_db, hm]
  | none =>
    by_cases hd : env.dbExists <;>
      · simp only [get_db, hm, hd]
        split
        · intro a ha
          simp at ha
          rcases ha with h1 | h1 <;> simp_all [DbAction.dbName]
        · split <;>
            · intro a ha
              simp at ha
              rcases ha with h1 | h1 | h1 | h1 <;> simp_all [DbAction.dbName]

theorem isProvisioningFor_dbName (name : String) (a : DbAction)
    (h : DbAction.isProvisioningFor name a = true) : DbAction.dbName a = name := by
  cases a <;> simp_all [DbAction.isProvisioningFor, DbAction.dbName]

/-- Claim C1: for every tenant key already present in the factory cache (and
hence in ProvisioningState), `get_db` returns a session from the cached
factory and performs neither the control-database existence check nor any
schema/table-creation statement: the call yields the cached factory's
session, performs an empty action trace, and leaves the registry state
unchanged. -/
theorem C1_fast_path_no_provisioning (env : DbEnv) (tenant : String) (s : RegistryState)
    (fid : Nat)
    (hcache : dictLookup (tenant ++ "db") s.tenant_sessions_postgres = some fid)
    (hinit : (tenant ++ "db") ∈ s.initialized_tenants) :
    get_db env tenant s = ⟨s, [], .session fid⟩ :=
  get_db_fast env tenant s fid hcache

theorem C1_witness :
    dictLookup ("t1" ++ "db") [("t1db", 0)] = some 0 ∧
    ("t1" ++ "db") ∈ ["t1db"] ∧
    get_db ⟨true, true, true⟩ "t1" ⟨[("t1db", 0)], ["t1db"], 1⟩ =
      ⟨⟨[("t1db", 0)], ["t1db"], 1⟩, [], .session 0⟩ :=
  ⟨by decide, by decide,
    C1_fast_path_no_provisioning ⟨true, true, true⟩ "t1" ⟨[("t1db", 0)], ["t1db"], 1⟩ 0
      (by decide) (by decide)⟩

/-- Claim C3: on a first-time tenant resolution where the create-database
statement fails, `get_db` does not raise at that point: the failed creation
is only a logged trace entry, the factory is still built and cached, and the
call can only fail later, at the schema-initialization connection attempt
(`connectOk = false`); when that later connection succeeds the request
proceeds and a session is yielded. -/
theorem C3_create_db_failure_swallowed (env : DbEnv) (tenant : String) (s : RegistryState)
    (hmiss : dictLookup (tenant ++ "db") s.tenant_sessions_postgres = none)
    (hexists : env.dbExists = false) (hfail : env.createDbOk = false) :
    DbAction.createDatabase (tenant ++ "db") false ∈ (get_db env tenant s).events ∧
    dictLookup (tenant ++ "db") (get_db env tenant s).state.tenant_sessions_postgres =
      some s.nextFactoryId ∧
    ((get_db env tenant s).outcome = .raised → env.connectOk = false) ∧
    (env.connectOk = true → (get_db env tenant s).outcome = .session s.nextFactoryId) := by
  simp only [get_db, hmiss, hexists, hfail]
  split
  · refine ⟨by simp, by simp [dictLookup], fun h => ?_, fun _ => by simp⟩
    simp at h
  · split
    · refine ⟨by simp, by simp [dictLookup], fun h => ?_, fun _ => by simp⟩
      simp at h
    · rename_i hc
      have hcf : env.connectOk = false := by
        cases hcv : env.connectOk
        · rfl
        · exact absurd hcv hc
      exact ⟨by simp, by simp [dictLookup], fun _ => hcf, fun h => absurd h hc⟩

theorem C3_witness :
    dictLookup ("t2" ++ "db") ([] : List (String × Nat)) = none ∧
    DbAction.createDatabase ("t2" ++ "db") false ∈
      (get_db ⟨false, false, true⟩ "t2" ⟨[], [], 0⟩).events ∧
    dictLookup ("t2" ++ "db")
      (get_db ⟨false, false, true⟩ "t2" ⟨[], [], 0⟩).state.tenant_sessions_postgres = some 0 ∧
    (get_db ⟨false, false, true⟩ "t2" ⟨[], [], 0⟩).outcome = .session 0 := by
  have h := C3_create_db_failure_swallowed ⟨false, false, true⟩ "t2" ⟨[], [], 0⟩
    (by decide) rfl rfl
  exact ⟨by decide, h.1, h.2.1, h.2.2.2 rfl⟩

/-- Claim C9: once a factory for a tenant has been cached, no later `get_db`
call ever executes a provisioning step (existence check, database creation,
schema creation, table creation) for that tenant again — in particular even
when the tenant never made it into `initialized_tenants` because schema
creation raised after the factory was cached, every later request takes the
fast path and the combined action trace of any sequence of subsequent calls
contains no provisioning action for that tenant's database. -/
theorem C9_cached_factory_never_reprovisions (calls : List (DbEnv × String))
    (s : RegistryState) (tenant : String) (fid : Nat)
    (hcache : dictLookup (tenant ++ "db") s.tenant_sessions_postgres = some fid) :
    (runCalls calls s).2.filter (DbAction.isProvisioningFor (tenant ++ "db")) = [] := by
  induction calls generalizing s fid with
  | nil => rfl
  | cons c rest ih =>
    obtain ⟨env, t⟩ := c
    have hpres := get_db_preserves_cached env t s (tenant ++ "db") fid hcache
    simp only [runCalls, List.filter_append]
    rw [ih (get_db env t s).state fid hpres]
    by_cases heq : t ++ "db" = tenant ++ "db"
    · have : dictLookup (t ++ "db") s.tenant_sessions_postgres = some fid := by
        rw [heq]
        exact hcache
      rw [get_db_fast env t s fid this]
      rfl
    · rw [List.append_nil]
      rw [List.filter_eq_nil_iff]
      intro a ha
      intro hprov
      exact heq ((get_db_events_name env t s a ha) ▸ isProvisioningFor_dbName _ a hprov)

theorem C9_witness :
    dictLookup ("t9" ++ "db") [("t9db", 0)] = some 0 ∧
    "t9db" ∉ ([] : List String) ∧
    (runCalls [(⟨true, true, true⟩, "t9"), (⟨false, false, true⟩, "t9")]
        ⟨[("t9db", 0)], [], 1⟩).2.filter (DbAction.isProvisioningFor ("t9" ++ "db")) = [] :=
  ⟨by decide, by decide,
    C9_cached_factory_never_reprovisions
      [(⟨true, true, true⟩, "t9"), (⟨false, false, true⟩, "t9")]
      ⟨[("t9db", 0)], [], 1⟩ "t9" 0 (by decide)⟩

/-- Claim C2, counterexample: starting from a state in which tenant `t1` is
cached with factory 0 and initialized, a successful administrative recreate
leaves the factory cache EMPTY — the cached entry is removed and no fresh
factory entry for the tenant exists in the cache when the operation
returns, contradicting the claim. -/
theorem C2_counterexample :
    (recreate_all_tables true "t1" true ⟨[("t1db", 0)], ["t1db"], 1⟩).outcome =
      RecreateOutcome.ok "Tables recreated for tenant: t1" ∧
    (recreate_all_tables true "t1" true
      ⟨[("t1db", 0)], ["t1db"], 1⟩).state.tenant_sessions_postgres = [] := by
  constructor
  · rfl
  · rfl

/-- Claim C2 as amended: after a successful administrative recreate, the
tenant database name is (re-)present in ProvisioningState
(`initialized_tenants`, i.e. SCHEMA_READY), and the cached factory entry has
been removed WITHOUT being rebuilt — the cache holds no entry for the tenant
when the operation returns (a fresh factory is only built by the next
`get_db` call). -/
theorem C2_recreate_state (tenant : String) (s : RegistryState) :
    (recreate_all_tables true tenant true s).outcome =
      RecreateOutcome.ok ("Tables recreated for tenant: " ++ tenant) ∧
    (tenant ++ "db") ∈ (recreate_all_tables true tenant true s).state.initialized_tenants ∧
    dictLookup (tenant ++ "db")
      (recreate_all_tables true tenant true s).state.tenant_sessions_postgres = none := by
  cases hc : dictLookup (tenant ++ "db") s.tenant_sessions_postgres with
  | none =>
    refine ⟨by simp [recreate_all_tables, hc], ?_, ?_⟩
    · simp [recreate_all_tables, hc, List.mem_insert_self]
    · simpa [recreate_all_tables, hc] using hc
  | some f =>
    refine ⟨by simp [recreate_all_tables, hc], ?_, ?_⟩
    · simp [recreate_all_tables, hc, List.mem_insert_self]
    · simpa [recreate_all_tables, hc] using dictLookup_dictRemove_self (tenant ++ "db")
        s.tenant_sessions_postgres

/-- Claim C6: a recreate-tables invocation with the flag absent or false
fails with HTTP 400 and performs zero storage mutation — the returned state
equals the input state (cache and ProvisioningState untouched) and the
action trace is empty (no session closed, no factory evicted, no table
dropped or created). -/
theorem C6_recreate_requires_flag (storageOk : Bool) (tenant : String) (s : RegistryState) :
    service_recreate_all_tables storageOk tenant false s =
      (s, [], 400, "Tables are not recreated. Set recreate=True to proceed") := by
  rfl

/-- Claim C4: evaluation at the failing input.  The table holds one contact
with email `ana@example.com` and phone `11111111`; a creation request
carries that same email together with a different phone `22222222` — a
duplicate email of an existing contact.  `find_by_email_or_phone` conjoins
the two filters, finds nothing, and `create_contact` answers 201 and
inserts a second contact, instead of the 409 conflict the claim (and the
DAO name, service docstring and response message) require. -/
theorem C4_code_bug_eval :
    (∃ c ∈ ([⟨0, "Ana", "Prva", "Ana Prva", "private", "admin",
        some "ana@example.com", some "11111111"⟩] : List DBContact),
      c.email = some "ana@example.com") ∧
    (create_contact
      [⟨0, "Ana", "Prva", "Ana Prva", "private", "admin",
        some "ana@example.com", some "11111111"⟩] 1
      ⟨"Bojan", "Drugi", "private", "admin",
        some "ana@example.com", some "22222222"⟩).1 = 201 ∧
    (create_contact
      [⟨0, "Ana", "Prva", "Ana Prva", "private", "admin",
        some "ana@example.com", some "11111111"⟩] 1
      ⟨"Bojan", "Drugi", "private", "admin",
        some "ana@example.com", some "22222222"⟩).2.length = 2 := by
  refine ⟨⟨_, List.mem_singleton_self _, rfl⟩, rfl, rfl⟩

/-- Example events database: one user `alice` owning one event `e1`, with no
agenda yet. -/
def exdb1 : EventsDB :=
  ⟨[⟨"alice", "alice@example.com"⟩], [⟨"e1", "alice", "Venue booking", "draft"⟩], [], []⟩

/-- Example events database: `alice` owns event `e1`, which has agenda `a1`
holding the single item `i1` (start 18:00, modelled as minute 1080). -/
def exdb2 : EventsDB :=
  ⟨[⟨"alice", "alice@example.com"⟩], [⟨"e1", "alice", "Venue booking", "draft"⟩],
    [⟨"a1", "e1", "Program", none⟩],
    [⟨"i1", "a1", "Dinner", none, 1080, none, none, "meal", 1, false⟩]⟩

/-- Claim C5, counterexample: `bob` does not own `alice`'s event `e1`, yet
the agenda-creation operation answers 404, not the claimed 403 (the other
agenda operations do answer 403). -/
theorem C5_counterexample :
    AgendaQuery.validate_ownership exdb1 "e1" "bob" = false ∧
    (AgendaLogic.create_agenda exdb1 "ag1" "e1" "bob" none none).1 = 404 := by
  exact ⟨rfl, rfl⟩

/-- Claim C5 as amended: every agenda operation invoked by a caller who does
not own the event fails without mutating the database; the failure status
is 403 for get/update/delete agenda, item create/update/delete and reorder,
and 404 for agenda creation. -/
theorem C5_non_owner_agenda_ops (db : EventsDB)
    (event_id user_id freshId item_id : String)
    (title description : Option String) (item_data : AgendaItemData)
    (patch : AgendaItemPatch) (item_orders : List (String × Nat))
    (h : AgendaQuery.validate_ownership db event_id user_id = false) :
    AgendaLogic.get_agenda db event_id user_id = (403, db) ∧
    AgendaLogic.create_agenda db freshId event_id user_id title description = (404, db) ∧
    AgendaLogic.update_agenda db event_id user_id title description = (403, db) ∧
    AgendaLogic.delete_agenda db event_id user_id = (403, db) ∧
    AgendaLogic.create_agenda_item db freshId event_id user_id item_data = (403, db) ∧
    AgendaLogic.update_agenda_item db event_id item_id user_id patch = (403, db) ∧
    AgendaLogic.delete_agenda_item db event_id item_id user_id = (403, db) ∧
    AgendaLogic.reorder_agenda_items db event_id user_id item_orders = (403, db) := by
  refine ⟨?_, ?_, ?_, ?_, ?_, ?_, ?_, ?_⟩ <;>
    simp [AgendaLogic.get_agenda, AgendaLogic.create_agenda, AgendaLogic.update_agenda,
      AgendaLogic.delete_agenda, AgendaLogic.create_agenda_item,
      AgendaLogic.update_agenda_item, AgendaLogic.delete_agenda_item,
      AgendaLogic.reorder_agenda_items, h]

theorem C5_witness :
    AgendaQuery.validate_ownership exdb1 "e1" "bob" = false ∧
    (AgendaLogic.get_agenda exdb1 "e1" "bob" = (403, exdb1) ∧
      AgendaLogic.create_agenda exdb1 "ag1" "e1" "bob" none none = (404, exdb1) ∧
      AgendaLogic.update_agenda exdb1 "e1" "bob" none none = (403, exdb1) ∧
      AgendaLogic.delete_agenda exdb1 "e1" "bob" = (403, exdb1) ∧
      AgendaLogic.create_agenda_item exdb1 "ag1" "e1" "bob"
          ⟨"Toast", none, 600, none, none, "other", none, false⟩ = (403, exdb1) ∧
      AgendaLogic.update_agenda_item exdb1 "e1" "i1" "bob"
          ⟨none, none, none, none, none, none, none, none⟩ = (403, exdb1) ∧
      AgendaLogic.delete_agenda_item exdb1 "e1" "i1" "bob" = (403, exdb1) ∧
      AgendaLogic.reorder_agenda_items exdb1 "e1" "bob" [] = (403, exdb1)) :=
  ⟨by decide,
    C5_non_owner_agenda_ops exdb1 "e1" "bob" "ag1" "i1" none none
      ⟨"Toast", none, 600, none, none, "other", none, false⟩
      ⟨none, none, none, none, none, none, none, none⟩ [] (by decide)⟩

theorem filter_reorder_length_lt (items : List DBAgendaItem) (agendaId : String)
    (item_ids : List String) (bad : String)
    (hnodup : (items.map (fun it => it.id)).Nodup)
    (hbad : bad ∈ item_ids)
    (hnot : ∀ it ∈ items, ¬(it.id = bad ∧ it.agenda_id = agendaId)) :
    (items.filter (fun (it : DBAgendaItem) =>
      item_ids.contains it.id && it.agenda_id == agendaId)).length < item_ids.length := by
  set l := items.filter (fun (it : DBAgendaItem) =>
    item_ids.contains it.id && it.agenda_id == agendaId) with hl
  have hsub : l.Sublist items := List.filter_sublist items
  have hmap : (l.map (fun it => it.id)).Sublist (items.map (fun it => it.id)) :=
    hsub.map (fun it => it.id)
  have hnd : (l.map (fun it => it.id)).Nodup := hnodup.sublist hmap
  have hmem : ∀ x ∈ l.map (fun it => it.id), x ∈ item_ids ∧ x ≠ bad := by
    intro x hx
    simp only [List.mem_map] at hx
    obtain ⟨it, hit, rfl⟩ := hx
    rw [hl, List.mem_filter] at hit
    obtain ⟨hmemit, hp⟩ := hit
    simp only [Bool.and_eq_true, beq_iff_eq] at hp
    obtain ⟨hcontains, hag⟩ := hp
    have hidin : it.id ∈ item_ids := by
      simpa using hcontains
    exact ⟨hidin, fun hbadid => hnot it hmemit ⟨hbadid, hag⟩⟩
  have hsubset : (l.map (fun it => it.id)).toFinset ⊆ item_ids.toFinset.erase bad := by
    intro x hx
    rw [List.mem_toFinset] at hx
    obtain ⟨hin, hne⟩ := hmem x hx
    exact Finset.mem_erase.mpr ⟨hne, List.mem_toFinset.mpr hin⟩
  have hcard1 : (l.map (fun it => it.id)).toFinset.card = l.length := by
    rw [List.toFinset_card_of_nodup hnd, List.length_map]
  have hcard2 : (item_ids.toFinset.erase bad).card = item_ids.toFinset.card - 1 :=
    Finset.card_erase_of_mem (List.mem_toFinset.mpr hbad)
  have hle : (l.map (fun it => it.id)).toFinset.card ≤ (item_ids.toFinset.erase bad).card :=
    Finset.card_le_card hsubset
  have hpos : 1 ≤ item_ids.toFinset.card :=
    Finset.card_pos.mpr ⟨bad, List.mem_toFinset.mpr hbad⟩
  have hlen : item_ids.toFinset.card ≤ item_ids.length := List.toFinset_card_le item_ids
  omega

/-- Claim C7: a bulk agenda-reorder request in which at least one referenced
item id does not belong to the event's agenda is rejected as a whole with
status 400 and the database — in particular every item's `display_order` —
is unchanged (no partial reorder is applied).  Item ids are assumed pairwise
distinct, as the id column is the table's primary key. -/
theorem C7_reorder_rejects_foreign_ids (db : EventsDB) (event_id user_id : String)
    (item_orders : List (String × Nat)) (agenda : DBAgenda) (bad : String)
    (hown : AgendaQuery.validate_ownership db event_id user_id = true)
    (hagenda : agendaJoinOwned db event_id user_id = some agenda)
    (hnodup : (db.items.map (fun it => it.id)).Nodup)
    (hbad : bad ∈ item_orders.map (fun io => io.1))
    (hnot : ∀ it ∈ db.items, ¬(it.id = bad ∧ it.agenda_id = agenda.id)) :
    AgendaLogic.reorder_agenda_items db event_id user_id item_orders = (400, db) := by
  have hlt := filter_reorder_length_lt db.items agenda.id
    (item_orders.map (fun io => io.1)) bad hnodup hbad hnot
  have hne : (db.items.filter (fun (it : DBAgendaItem) =>
      (item_orders.map (fun io => io.1)).contains it.id && it.agenda_id == agenda.id)).length ≠
      (item_orders.map (fun io => io.1)).length := Nat.ne_of_lt hlt
  have hbulk : AgendaItemQuery.bulk_reorder db event_id user_id item_orders = none := by
    have hc : ((db.items.filter (fun (it : DBAgendaItem) =>
        (item_orders.map (fun io => io.1)).contains it.id && it.agenda_id == agenda.id)).length !=
        (item_orders.map (fun io => io.1)).length) = true := bne_iff_ne.mpr hne
    simp only [AgendaItemQuery.bulk_reorder, hagenda]
    rw [if_pos hc]
  simp [AgendaLogic.reorder_agenda_items, hown, hbulk]

theorem C7_witness :
    AgendaQuery.validate_ownership exdb2 "e1" "alice" = true ∧
    agendaJoinOwned exdb2 "e1" "alice" = some ⟨"a1", "e1", "Program", none⟩ ∧
    "iX" ∈ ([("i1", 2), ("iX", 1)] : List (String × Nat)).map (fun io => io.1) ∧
    (∀ it ∈ exdb2.items, ¬(it.id = "iX" ∧ it.agenda_id = "a1")) ∧
    AgendaLogic.reorder_agenda_items exdb2 "e1" "alice" [("i1", 2), ("iX", 1)] = (400, exdb2) :=
  ⟨by decide, by decide, by decide, by decide,
    C7_reorder_rejects_foreign_ids exdb2 "e1" "alice" [("i1", 2), ("iX", 1)]
      ⟨"a1", "e1", "Program", none⟩ "iX" (by decide) (by decide) (by decide) (by decide)
      (by decide)⟩

/-- Claim C8: for agenda-item creation by the event owner, a provided
`end_time` that is not strictly after `start_time` is rejected with 422 and
no item is created, while a request with `end_time = None` passes the
time-range check and (when the agenda exists) is accepted with 201,
inserting one item. -/
theorem C8_item_time_validation (db : EventsDB) (freshId event_id user_id : String)
    (hown : AgendaQuery.validate_ownership db event_id user_id = true) :
    (∀ (item_data : AgendaItemData) (e : Nat), item_data.end_time = some e →
      e ≤ item_data.start_time →
      AgendaLogic.create_agenda_item db freshId event_id user_id item_data = (422, db)) ∧
    (∀ (item_data : AgendaItemData) (agenda : DBAgenda), item_data.end_time = none →
      agendaJoinOwned db event_id user_id = some agenda →
      (AgendaLogic.create_agenda_item db freshId event_id user_id item_data).1 = 201 ∧
      (AgendaLogic.create_agenda_item db freshId event_id user_id item_data).2.items.length =
        db.items.length + 1) := by
  constructor
  · intro item_data e hend hle
    simp [AgendaLogic.create_agenda_item, hown, hend, hle]
  · intro item_data agenda hend hagenda
    simp [AgendaLogic.create_agenda_item, hown, hend, AgendaItemQuery.create, hagenda]

theorem C8_witness :
    AgendaQuery.validate_ownership exdb2 "e1" "alice" = true ∧
    AgendaLogic.create_agenda_item exdb2 "i9" "e1" "alice"
      ⟨"Cocktails", none, 1080, some 1020, none, "other", none, false⟩ = (422, exdb2) ∧
    (AgendaLogic.create_agenda_item exdb2 "i9" "e1" "alice"
      ⟨"Cocktails", none, 1080, none, none, "other", none, false⟩).1 = 201 :=
  ⟨by decide,
    (C8_item_time_validation exdb2 "i9" "e1" "alice" (by decide)).1
      ⟨"Cocktails", none, 1080, some 1020, none, "other", none, false⟩ 1020 rfl (by decide),
    ((C8_item_time_validation exdb2 "i9" "e1" "alice" (by decide)).2
      ⟨"Cocktails", none, 1080, none, none, "other", none, false⟩
      ⟨"a1", "e1", "Program", none⟩ rfl (by decide)).1⟩

/-- Claim C10: the agenda-item partial update applies the end-after-start
check only when the patch carries both times.  For every update request by
the owner that supplies `end_time` but omits `start_time` and targets an
existing item, the update is accepted with 200 and the patch is persisted
without any comparison against the stored `start_time`: the stored item's
`end_time` becomes the patched value while its `start_time` is unchanged —
so the persisted item can end up with `end_time ≤ start_time`. -/
theorem C10_item_patch_skips_cross_check (db : EventsDB) (event_id item_id user_id : String)
    (p : AgendaItemPatch) (it : DBAgendaItem) (e : Nat)
    (hown : AgendaQuery.validate_ownership db event_id user_id = true)
    (hstart : p.start_time = none)
    (hend : p.end_time = some e)
    (hfound : AgendaItemQuery.get_one db item_id event_id user_id = some it) :
    AgendaLogic.update_agenda_item db event_id item_id user_id p =
      (200, { db with items := db.items.map (fun (x : DBAgendaItem) =>
        if x.id == it.id then applyPatch it p else x) }) ∧
    (applyPatch it p).end_time = some e ∧
    (applyPatch it p).start_time = it.start_time := by
  refine ⟨?_, ?_, ?_⟩
  · simp [AgendaLogic.update_agenda_item, hown, hstart, AgendaItemQuery.update, hfound]
  · simp [applyPatch, hend]
  · simp [applyPatch, hstart]

theorem C10_witness :
    AgendaQuery.validate_ownership exdb2 "e1" "alice" = true ∧
    (AgendaLogic.update_agenda_item exdb2 "e1" "i1" "alice"
      ⟨none, none, none, some 600, none, none, none, none⟩).1 = 200 ∧
    (applyPatch ⟨"i1", "a1", "Dinner", none, 1080, none, none, "meal", 1, false⟩
      ⟨none, none, none, some 600, none, none, none, none⟩).end_time = some 600 ∧
    (applyPatch ⟨"i1", "a1", "Dinner", none, 1080, none, none, "meal", 1, false⟩
      ⟨none, none, none, some 600, none, none, none, none⟩).start_time = 1080 ∧
    600 ≤ 1080 := by
  have h := C10_item_patch_skips_cross_check exdb2 "e1" "i1" "alice"
    ⟨none, none, none, some 600, none, none, none, none⟩
    ⟨"i1", "a1", "Dinner", none, 1080, none, none, "meal", 1, false⟩ 600
    (by decide) rfl rfl (by decide)
  refine ⟨by decide, ?_, h.2.1, h.2.2, by decide⟩
  rw [h.1]
